import Mathlib

/-!
Verification of the guitar-factory manufacturing game.

The authoritative client code is
src/main/guitar-factory/guitar-factory-frontend/src/components/guitar-factory-dashboard.jsx;
the discrete-event simulation engine lives behind the /api/simulate_week
endpoint and is not part of the repository sources, so the two engine-side
components needed below (the stage buffer and the dispatch controller) are
modelled from the specification text and marked as such.

JavaScript numbers that hold money or unit amounts are embedded as Int;
week indices and batch sizes are Nat.
-/

namespace GuitarFactory

/-- Financial breakdown of one simulated week, as consumed by the dashboard
(`results.financial_results`). -/
structure FinancialResults where
  total_revenue : Int
  labor_costs : Int
  material_costs : Int
  fixed_costs : Int
  idle_costs : Int
deriving Repr, DecidableEq

/-- Final buffer/stock snapshot of one simulated week
(`results.final_state`), exactly the seven levels the dashboard reads. -/
structure FinalState where
  wood_level : Int
  electronic_level : Int
  body_pre_paint : Int
  neck_pre_paint : Int
  body_post_paint : Int
  neck_post_paint : Int
  dispatch : Int
deriving Repr, DecidableEq

/-- One week's simulation result as received from the backend and stored in
`gameState.weeklyResults`. -/
structure WeekResult where
  week_number : Nat
  guitars_made : Int
  overproduction : Int
  remaining_demand : Int
  demand_penalty : Int
  financial_results : FinancialResults
  final_state : FinalState
  logLines : List String
deriving Repr, DecidableEq

/-- The campaign state kept in the `gameState` React state variable. -/
structure GameState where
  currentWeek : Nat
  totalDemand : Int
  remainingDemand : Int
  weeklyResults : List WeekResult
  isGameComplete : Bool
deriving Repr, DecidableEq

/-- `initialGameState` from guitar-factory-dashboard.jsx. -/
def initialGameState : GameState :=
  { currentWeek := 1
    totalDemand := 200
    remainingDemand := 200
    weeklyResults := []
    isGameComplete := false }

/-- The simulation parameters kept in the `params` React state variable. -/
structure Params where
  hours : Int
  days : Int
  num_body : Int
  num_neck : Int
  num_paint : Int
  num_ensam : Int
  dispatch_threshold : Int
  total_demand : Int
  current_week : Int
deriving Repr, DecidableEq

/-- `initialParams` from guitar-factory-dashboard.jsx. -/
def initialParams : Params :=
  { hours := 8
    days := 5
    num_body := 2
    num_neck := 1
    num_paint := 3
    num_ensam := 2
    dispatch_threshold := 50
    total_demand := 200
    current_week := 1 }

/-- The `name` attribute of a numeric input, identifying which field of
`params` the `handleInputChange` handler writes. -/
inductive ParamField
  | hours | days | num_body | num_neck | num_paint | num_ensam
  | dispatch_threshold | total_demand | current_week
deriving Repr, DecidableEq

/-- `handleInputChange`: stores `parseInt(value, 10)` into the named field of
`params`, with no validation or clamping (the HTML `min`/`max` attributes on
the inputs are rendering hints only and do not constrain this update). -/
def handleInputChange (p : Params) (f : ParamField) (v : Int) : Params :=
  match f with
  | .hours => { p with hours := v }
  | .days => { p with days := v }
  | .num_body => { p with num_body := v }
  | .num_neck => { p with num_neck := v }
  | .num_paint => { p with num_paint := v }
  | .num_ensam => { p with num_ensam := v }
  | .dispatch_threshold => { p with dispatch_threshold := v }
  | .total_demand => { p with total_demand := v }
  | .current_week => { p with current_week := v }

/-- Read the field of `params` named by `f`. -/
def Params.getField (p : Params) (f : ParamField) : Int :=
  match f with
  | .hours => p.hours
  | .days => p.days
  | .num_body => p.num_body
  | .num_neck => p.num_neck
  | .num_paint => p.num_paint
  | .num_ensam => p.num_ensam
  | .dispatch_threshold => p.dispatch_threshold
  | .total_demand => p.total_demand
  | .current_week => p.current_week

/-- The `setGameState` update performed by `runWeek` after a successful
response (guitar-factory-dashboard.jsx lines 83-89): week counter advances to
`week_number + 1`, remaining demand is overwritten, the result is appended,
and the game is complete once `week_number >= 4`. -/
def applyWeekResult (gs : GameState) (r : WeekResult) : GameState :=
  { gs with
    currentWeek := r.week_number + 1
    remainingDemand := r.remaining_demand
    weeklyResults := gs.weeklyResults ++ [r]
    isGameComplete := decide (4 ≤ r.week_number) }

/-- The run-week button's enabled condition: `disabled = loading ||
gameState.isGameComplete` (line 415). -/
def runWeekEnabled (loading : Bool) (gs : GameState) : Bool :=
  !loading && !gs.isGameComplete

/-- Outcome of the `fetch` performed by `runWeek`: the three failure modes
caught by its `try`/`catch` (network rejection, `!response.ok`, JSON parse
failure) or a parsed `WeekResult`. -/
inductive FetchOutcome
  | networkFailure (msg : String)
  | httpFailure (statusCode : Nat)
  | parseFailure (msg : String)
  | ok (r : WeekResult)
deriving Repr, DecidableEq

/-- The component state touched by `runWeek`, `resetGame` and
`handlePlayAgain`. -/
structure DashboardState where
  gameState : GameState
  params : Params
  results : Option WeekResult
  showFinalModal : Bool
deriving Repr, DecidableEq

/-- `runWeek`'s effect on component state: on success it applies
`applyWeekResult` and stores the result for display; on any caught error it
only alerts, leaving all state as it was. -/
def runWeek (d : DashboardState) (outcome : FetchOutcome) : DashboardState :=
  match outcome with
  | .ok r => { d with gameState := applyWeekResult d.gameState r, results := some r }
  | .networkFailure _ => d
  | .httpFailure _ => d
  | .parseFailure _ => d

/-- `resetGame`: restores `initialGameState` and `initialParams` and clears
the displayed results. -/
def resetGame (d : DashboardState) : DashboardState :=
  { d with gameState := initialGameState, params := initialParams, results := none }

/-- `handlePlayAgain`: closes the final modal, then resets the game. -/
def handlePlayAgain (d : DashboardState) : DashboardState :=
  resetGame { d with showFinalModal := false }

/-- `formatMetricsForChart`: the seven named bars drawn from a week's final
state. -/
def formatMetricsForChart (fs : FinalState) : List (String × Int) :=
  [ ("Wood Stock", fs.wood_level)
  , ("Electronic Parts", fs.electronic_level)
  , ("Body Pre-Paint", fs.body_pre_paint)
  , ("Neck Pre-Paint", fs.neck_pre_paint)
  , ("Body Post-Paint", fs.body_post_paint)
  , ("Neck Post-Paint", fs.neck_post_paint)
  , ("Ready for Dispatch", fs.dispatch) ]

/-- The accumulator built by `calculateTotalResults`. -/
structure Totals where
  guitars_made : Int
  total_revenue : Int
  labor_costs : Int
  material_costs : Int
  fixed_costs : Int
  idle_costs : Int
  demand_penalty : Int
deriving Repr, DecidableEq

/-- One iteration of the `forEach` loop in `calculateTotalResults`. -/
def addWeek (t : Totals) (w : WeekResult) : Totals :=
  { guitars_made := t.guitars_made + w.guitars_made
    total_revenue := t.total_revenue + w.financial_results.total_revenue
    labor_costs := t.labor_costs + w.financial_results.labor_costs
    material_costs := t.material_costs + w.financial_results.material_costs
    fixed_costs := t.fixed_costs + w.financial_results.fixed_costs
    idle_costs := t.idle_costs + w.financial_results.idle_costs
    demand_penalty := t.demand_penalty + w.demand_penalty }

/-- `calculateTotalResults`: folds the week results into cumulative totals,
starting from all-zero. -/
def calculateTotalResults (ws : List WeekResult) : Totals :=
  ws.foldl addWeek ⟨0, 0, 0, 0, 0, 0, 0⟩

/-- The weekly Net Profit displayed by the dashboard (lines 469-472):
`revenue - labor - material - fixed`. -/
def weeklyNetProfit (fr : FinancialResults) : Int :=
  fr.total_revenue - fr.labor_costs - fr.material_costs - fr.fixed_costs

/-- The Final Profit of the month-end modal (lines 670-672):
cumulative `revenue - labor - material - fixed - demand_penalty`. -/
def finalProfit (t : Totals) : Int :=
  t.total_revenue - t.labor_costs - t.material_costs - t.fixed_costs - t.demand_penalty

/-- Whether the weekly summary renders a Demand Penalty line for a week
result (line 431: shown when `demand_penalty > 0`; the same guard appears in
the Previous Weeks section, line 633). -/
def showsWeeklyPenalty (r : WeekResult) : Bool :=
  decide (0 < r.demand_penalty)

/-- A concrete week result used to evaluate the definitions on closed
inputs. -/
def sampleWeek (n : Nat) (penalty : Int) : WeekResult :=
  { week_number := n
    guitars_made := 40
    overproduction := 0
    remaining_demand := 160
    demand_penalty := penalty
    financial_results :=
      { total_revenue := 32000
        labor_costs := 9000
        material_costs := 6000
        fixed_costs := 10000
        idle_costs := 1200 }
    final_state :=
      { wood_level := 30
        electronic_level := 12
        body_pre_paint := 3
        neck_pre_paint := 2
        body_post_paint := 1
        neck_post_paint := 1
        dispatch := 5 }
    logLines := [] }

/-! Engine-side components. The simulation engine behind /api/simulate_week is
not among the repository sources, so the stage buffer and the dispatch
controller are modelled from the specification. -/

/-- Modelled from the spec: a StageBuffer (spec §3, §4.4) — the engine source
is not in the repository. A capacity-bounded holding area; occupancy is a
count, embedded as Int so that the lower bound is a provable property rather
than a typing artifact. -/
structure StageBuffer where
  capacity : Int
  occupancy : Int
deriving Repr, DecidableEq

/-- Modelled from the spec: `try_take(n)` (spec §4.4) succeeds only if
occupancy ≥ n; otherwise the caller stage blocks and the buffer is
untouched. -/
def tryTake (b : StageBuffer) (n : Nat) : Option StageBuffer :=
  if (n : Int) ≤ b.occupancy then some { b with occupancy := b.occupancy - n } else none

/-- Modelled from the spec: `try_put(n)` (spec §4.4) succeeds only if
occupancy + n ≤ capacity; otherwise the producer stalls and the buffer is
untouched. -/
def tryPut (b : StageBuffer) (n : Nat) : Option StageBuffer :=
  if b.occupancy + n ≤ b.capacity then some { b with occupancy := b.occupancy + n } else none

/-- One interaction of a stage with a buffer: a take or a put of `n` units. -/
inductive BufferOp
  | take (n : Nat)
  | put (n : Nat)
deriving Repr, DecidableEq

/-- Effect of one interaction on the buffer: a failed `try_take`/`try_put`
blocks the caller and leaves the buffer unchanged. -/
def applyOp (b : StageBuffer) (op : BufferOp) : StageBuffer :=
  match op with
  | .take n => (tryTake b n).getD b
  | .put n => (tryPut b n).getD b

/-- A whole observed history of buffer interactions, in scheduler order. -/
def runOps (b : StageBuffer) (ops : List BufferOp) : StageBuffer :=
  ops.foldl applyOp b

/-- The buffer-bound invariant of spec §3/§8: 0 ≤ occupancy ≤ capacity. -/
def bufferOk (b : StageBuffer) : Prop :=
  0 ≤ b.occupancy ∧ b.occupancy ≤ b.capacity

instance (b : StageBuffer) : Decidable (bufferOk b) := by
  unfold bufferOk; infer_instance

/-- Modelled from the spec: the Dispatch Controller's view of the
finished-goods buffer and ledger (spec §4.6) — the engine source is not in
the repository. -/
structure DispatchLedger where
  finishedGoods : Nat
  revenue : Int
  dispatch_costs : Int
deriving Repr, DecidableEq

/-- Modelled from the spec: the dispatch check (spec §4.6). Once occupancy ≥
threshold, the entire buffer content is shipped, occupancy resets to zero,
revenue is credited per unit shipped, and one flat dispatch fee is charged;
below threshold nothing happens. -/
def dispatchCheck (threshold : Nat) (price fee : Int) (s : DispatchLedger) : DispatchLedger :=
  if threshold ≤ s.finishedGoods then
    { finishedGoods := 0
      revenue := s.revenue + price * (s.finishedGoods : Int)
      dispatch_costs := s.dispatch_costs + fee }
  else s

end GuitarFactory

namespace GuitarFactory

/-- C1: for every completed week, the Net Profit the dashboard reports is
exactly revenue − labor − material − fixed; replacing the week's idle cost or
demand penalty by anything leaves that figure unchanged, so neither
contributes to it. -/
theorem weekly_profit_formula (r : WeekResult) (idle pen : Int) :
    weeklyNetProfit r.financial_results
      = r.financial_results.total_revenue - r.financial_results.labor_costs
        - r.financial_results.material_costs - r.financial_results.fixed_costs
    ∧ weeklyNetProfit { r.financial_results with idle_costs := idle }
        = weeklyNetProfit r.financial_results
    ∧ weeklyNetProfit ({ r with demand_penalty := pen }).financial_results
        = weeklyNetProfit r.financial_results :=
  ⟨rfl, rfl, rfl⟩

/-- C2 counterexample: a week result carries its own demand penalty, the
weekly summary displays it, and `calculateTotalResults` accumulates the final
penalty from the individual weeks — at a concrete week with penalty 100 the
campaign total picks it up. -/
theorem weekly_penalty_in_ledger :
    showsWeeklyPenalty (sampleWeek 1 100) = true
    ∧ (calculateTotalResults [sampleWeek 1 100]).demand_penalty = 100
    ∧ (calculateTotalResults [sampleWeek 1 0]).demand_penalty = 0 := by
  refine ⟨rfl, ?_, ?_⟩ <;> rfl

theorem foldl_addWeek_spec (l : List WeekResult) :
    ∀ acc : Totals, l.foldl addWeek acc =
      { guitars_made := acc.guitars_made + (l.map (fun w => w.guitars_made)).sum
        total_revenue := acc.total_revenue
          + (l.map (fun w => w.financial_results.total_revenue)).sum
        labor_costs := acc.labor_costs
          + (l.map (fun w => w.financial_results.labor_costs)).sum
        material_costs := acc.material_costs
          + (l.map (fun w => w.financial_results.material_costs)).sum
        fixed_costs := acc.fixed_costs
          + (l.map (fun w => w.financial_results.fixed_costs)).sum
        idle_costs := acc.idle_costs
          + (l.map (fun w => w.financial_results.idle_costs)).sum
        demand_penalty := acc.demand_penalty
          + (l.map (fun w => w.demand_penalty)).sum } := by
  induction l with
  | nil => intro acc; simp
  | cons w l ih =>
    intro acc
    simp [List.foldl_cons, ih, addWeek, add_assoc]

/-- C2 amended: each week result carries a demand_penalty field that the
dashboard shows in that week's summary when positive; the campaign-level
penalty is the sum of the per-week penalties accumulated by
`calculateTotalResults`, and the final profit subtracts that accumulated
sum. -/
theorem campaign_penalty_accumulated (ws : List WeekResult) (t : Totals) :
    (calculateTotalResults ws).demand_penalty = (ws.map (fun w => w.demand_penalty)).sum
    ∧ finalProfit t
        = t.total_revenue - t.labor_costs - t.material_costs - t.fixed_costs
          - t.demand_penalty := by
  constructor
  · have key := foldl_addWeek_spec ws ⟨0, 0, 0, 0, 0, 0, 0⟩
    simpa [calculateTotalResults] using congrArg Totals.demand_penalty key
  · rfl

/-- C3: receiving the result of week N advances the campaign to week N + 1,
appends the result to the ordered list of completed weeks, and completes the
campaign exactly when N ≥ 4; in any completed state the run-week button is
disabled, so a completed campaign can never start another week simulation. -/
theorem campaign_week_transition (gs : GameState) (r : WeekResult) (loading : Bool) :
    (applyWeekResult gs r).currentWeek = r.week_number + 1
    ∧ (applyWeekResult gs r).weeklyResults = gs.weeklyResults ++ [r]
    ∧ ((applyWeekResult gs r).isGameComplete = true ↔ 4 ≤ r.week_number)
    ∧ runWeekEnabled loading { gs with isGameComplete := true } = false := by
  refine ⟨rfl, rfl, ?_, ?_⟩
  · simp [applyWeekResult]
  · simp [runWeekEnabled]

/-- C4 counterexample: out-of-range configurations are not rejected — a zero
headcount, negative hours and an oversize dispatch threshold are all stored
verbatim by `handleInputChange`, and with such parameters the run-week button
is still enabled on the initial state; no configuration-error signal exists
in the client. -/
theorem config_not_rejected :
    (handleInputChange initialParams .num_body 0).num_body = 0
    ∧ (handleInputChange initialParams .hours (-3)).hours = -3
    ∧ (handleInputChange initialParams .dispatch_threshold 1000).dispatch_threshold = 1000
    ∧ runWeekEnabled false initialGameState = true :=
  ⟨rfl, rfl, rfl, rfl⟩

/-- C4 amended: configuration values are stored verbatim — never clamped —
and starting a week is guarded only by the loading flag and campaign
completion, not by configuration validity, so invalid configurations are
neither clamped nor rejected before a run starts. -/
theorem config_stored_verbatim (p : Params) (f : ParamField) (v : Int)
    (loading : Bool) (gs : GameState) :
    (handleInputChange p f v).getField f = v
    ∧ runWeekEnabled loading gs = (!loading && !gs.isGameComplete) := by
  constructor
  · cases f <;> rfl
  · rfl

/-- C5: every cumulative campaign total produced by `calculateTotalResults`
is the sum of the corresponding per-week field over the ordered list of
completed week results. -/
theorem totals_are_sums (ws : List WeekResult) :
    calculateTotalResults ws =
      { guitars_made := (ws.map (fun w => w.guitars_made)).sum
        total_revenue := (ws.map (fun w => w.financial_results.total_revenue)).sum
        labor_costs := (ws.map (fun w => w.financial_results.labor_costs)).sum
        material_costs := (ws.map (fun w => w.financial_results.material_costs)).sum
        fixed_costs := (ws.map (fun w => w.financial_results.fixed_costs)).sum
        idle_costs := (ws.map (fun w => w.financial_results.idle_costs)).sum
        demand_penalty := (ws.map (fun w => w.demand_penalty)).sum } := by
  have key := foldl_addWeek_spec ws ⟨0, 0, 0, 0, 0, 0, 0⟩
  simpa [calculateTotalResults] using key

/-- C6: every week result carries a full final-state snapshot, and the
dashboard reads exactly one ending value for each of the seven buffer/stock
levels from it: wood, electronics, body/neck pre-paint, body/neck post-paint,
and the finished-goods dispatch buffer. -/
theorem week_snapshot_complete (r : WeekResult) :
    formatMetricsForChart r.final_state =
      [ ("Wood Stock", r.final_state.wood_level)
      , ("Electronic Parts", r.final_state.electronic_level)
      , ("Body Pre-Paint", r.final_state.body_pre_paint)
      , ("Neck Pre-Paint", r.final_state.neck_pre_paint)
      , ("Body Post-Paint", r.final_state.body_post_paint)
      , ("Neck Post-Paint", r.final_state.neck_post_paint)
      , ("Ready for Dispatch", r.final_state.dispatch) ]
    ∧ (formatMetricsForChart r.final_state).length = 7 :=
  ⟨rfl, rfl⟩

theorem applyOp_ok (b : StageBuffer) (op : BufferOp) (h : bufferOk b) :
    bufferOk (applyOp b op) ∧ (applyOp b op).capacity = b.capacity := by
  obtain ⟨h0, hc⟩ := h
  cases op with
  | take n =>
    by_cases hle : (n : Int) ≤ b.occupancy
    · have hstep : applyOp b (.take n) = { b with occupancy := b.occupancy - n } := by
        simp [applyOp, tryTake, hle]
      rw [hstep]
      refine ⟨⟨?_, ?_⟩, rfl⟩
      · show (0 : Int) ≤ b.occupancy - (n : Int)
        omega
      · show b.occupancy - (n : Int) ≤ b.capacity
        omega
    · have hstep : applyOp b (.take n) = b := by
        simp [applyOp, tryTake, hle]
      rw [hstep]
      exact ⟨⟨h0, hc⟩, rfl⟩
  | put n =>
    by_cases hle : b.occupancy + n ≤ b.capacity
    · have hstep : applyOp b (.put n) = { b with occupancy := b.occupancy + n } := by
        simp [applyOp, tryPut, hle]
      rw [hstep]
      refine ⟨⟨?_, ?_⟩, rfl⟩
      · show (0 : Int) ≤ b.occupancy + (n : Int)
        omega
      · show b.occupancy + (n : Int) ≤ b.capacity
        omega
    · have hstep : applyOp b (.put n) = b := by
        simp [applyOp, tryPut, hle]
      rw [hstep]
      exact ⟨⟨h0, hc⟩, rfl⟩

/-- C7: from any buffer state within bounds, every observed history of
take/put interactions keeps 0 ≤ occupancy ≤ capacity (and never changes the
configured capacity). -/
theorem buffer_bound_invariant (b : StageBuffer) (ops : List BufferOp)
    (h : bufferOk b) :
    bufferOk (runOps b ops) ∧ (runOps b ops).capacity = b.capacity := by
  induction ops generalizing b with
  | nil => exact ⟨h, rfl⟩
  | cons op ops ih =>
    obtain ⟨hok, hcap⟩ := applyOp_ok b op h
    obtain ⟨hok2, hcap2⟩ := ih (applyOp b op) hok
    exact ⟨hok2, by rw [runOps] at hcap2 ⊢; simp only [List.foldl_cons]; omega⟩

/-- C7 witness: a concrete history with blocked and successful operations
keeps a capacity-10 buffer within bounds. -/
theorem buffer_bound_invariant_witness :
    bufferOk (runOps ⟨10, 3⟩ [.put 5, .take 2, .put 100, .take 50, .put 4]) :=
  (buffer_bound_invariant ⟨10, 3⟩ [.put 5, .take 2, .put 100, .take 50, .put 4]
    (by decide)).1

/-- C8: once the finished-goods buffer reaches the configured threshold, the
dispatch check ships the entire content, resets occupancy to zero, credits
revenue for exactly the units shipped and charges one flat fee; an immediate
second check (occupancy 0) changes nothing. -/
theorem dispatch_threshold_behavior (threshold : Nat) (price fee : Int)
    (occ : Nat) (rev dcost : Int) (hT : 0 < threshold) (hocc : threshold ≤ occ) :
    dispatchCheck threshold price fee ⟨occ, rev, dcost⟩
      = ⟨0, rev + price * (occ : Int), dcost + fee⟩
    ∧ dispatchCheck threshold price fee
        (dispatchCheck threshold price fee ⟨occ, rev, dcost⟩)
      = dispatchCheck threshold price fee ⟨occ, rev, dcost⟩ := by
  have h1 : dispatchCheck threshold price fee ⟨occ, rev, dcost⟩
      = ⟨0, rev + price * (occ : Int), dcost + fee⟩ := by
    simp [dispatchCheck, hocc]
  refine ⟨h1, ?_⟩
  rw [h1]
  show dispatchCheck threshold price fee ⟨0, rev + price * (occ : Int), dcost + fee⟩
      = (⟨0, rev + price * (occ : Int), dcost + fee⟩ : DispatchLedger)
  unfold dispatchCheck
  rw [if_neg (show ¬ threshold ≤ (0 : Nat) by omega)]

/-- C8 witness: at the default threshold 50 with the documented price 800 and
fee 500, dispatching a buffer of exactly 50 ships all 50 for 40000 revenue
and one 500 fee, and a second check is a no-op. -/
theorem dispatch_threshold_behavior_witness :
    dispatchCheck 50 800 500 ⟨50, 0, 0⟩ = ⟨0, 40000, 500⟩
    ∧ dispatchCheck 50 800 500 (dispatchCheck 50 800 500 ⟨50, 0, 0⟩)
      = dispatchCheck 50 800 500 ⟨50, 0, 0⟩ := by
  have h := dispatch_threshold_behavior 50 800 500 50 0 0 (by decide) (by decide)
  refine ⟨?_, h.2⟩
  rw [h.1]
  decide

/-- C9: if the week-simulation request fails — network error, non-OK HTTP
status, or unparsable response — the entire component state, and with it the
campaign state (current week, remaining demand, completed results,
completion flag), is left exactly as before the request. -/
theorem run_week_atomic_on_error (d : DashboardState) (m1 m2 : String)
    (statusCode : Nat) :
    runWeek d (.networkFailure m1) = d
    ∧ runWeek d (.httpFailure statusCode) = d
    ∧ runWeek d (.parseFailure m2) = d :=
  ⟨rfl, rfl, rfl⟩

/-- C10: from any dashboard state, `resetGame` (and `handlePlayAgain`, which
additionally closes the final modal) restores exactly the initial campaign
state — week 1, demand 200/200, no weekly results, not complete — together
with the default parameters and no displayed results. -/
theorem reset_restores_initial (d : DashboardState) :
    resetGame d = { gameState := initialGameState, params := initialParams,
                    results := none, showFinalModal := d.showFinalModal }
    ∧ handlePlayAgain d = { gameState := initialGameState, params := initialParams,
                            results := none, showFinalModal := false }
    ∧ initialGameState.currentWeek = 1
    ∧ initialGameState.totalDemand = 200
    ∧ initialGameState.remainingDemand = 200
    ∧ initialGameState.weeklyResults = []
    ∧ initialGameState.isGameComplete = false :=
  ⟨rfl, rfl, rfl, rfl, rfl, rfl, rfl⟩

end GuitarFactory
